import Mathlib

/-!
Verification of the uio byte-buffer library (src/uio.hpp, with the two
unnamed variant translation units) against its natural-language spec.

Modelling conventions:
* `size_t` is modelled as `Nat`.  The C code only subtracts `size_t`
  values where the cursor-ordering invariant (`getpos ≤ putpos ≤ capacity`,
  proved below for all reachable states) guarantees no wrap-around, so
  truncated `Nat` subtraction coincides with the machine subtraction on
  every reachable state.
* `char` bytes are modelled as `Nat` values; no claim performs arithmetic
  on byte values.
* The backing storage pointer `_buf` is modelled as `Option (List Nat)`:
  `none` is the NULL pointer, `some st` is a bound array whose contents
  are `st`.  `memcpy` into the storage is list surgery; a store through a
  NULL pointer (undefined behaviour in the C source, which performs no
  null check) leaves the `none` storage unchanged while the cursor
  arithmetic and return counts follow the source's control flow exactly.
-/

namespace uio

/-- Error register: the `streamerr` bitfield of src/uio.hpp
(`uninitialized:1, overflow:1, reserved:4`). `reserved` is the 4-bit
application-layer field, modelled as a `Nat`. -/
structure streamerr where
  uninitialized : Bool
  overflow : Bool
  reserved : Nat
deriving DecidableEq, Repr

/-- `streamerr::streamerr()`: memset to zero, i.e. all flags clear. -/
def streamerr.mk0 : streamerr := ⟨false, false, 0⟩

/-- `streamerr::clear()`: memset the flag bitmap to zero. -/
def streamerr.clearFlags (_ : streamerr) : streamerr := ⟨false, false, 0⟩

/-- `streamerr::any()`: true iff some flag bit is set (bitwise OR over
the bitfield bytes). -/
def streamerr.any (e : streamerr) : Bool :=
  e.uninitialized || e.overflow || decide (e.reserved ≠ 0)

/-- `streamerr::operator|=`: bitwise OR of the two flag bitmaps, in
place on the left operand. -/
def streamerr.merge (a b : streamerr) : streamerr :=
  ⟨a.uninitialized || b.uninitialized, a.overflow || b.overflow,
   Nat.lor a.reserved b.reserved⟩

/-- The `streambuf` class of src/uio.hpp: capacity, read (`_getpos`) and
write (`_putpos`) cursors, the lazy-rewind flag `_dump`, the borrowed
storage `_buf`, and the embedded error register `_error`. -/
structure streambuf where
  _capacity : Nat
  _getpos : Nat
  _putpos : Nat
  _dump : Bool
  _buf : Option (List Nat)
  _error : streamerr
deriving DecidableEq, Repr

/-- `streambuf::streambuf()`: zero capacity and cursors, no dump
pending, NULL storage, and the `uninitialized` error flag set. -/
def streambuf.init : streambuf :=
  { _capacity := 0, _getpos := 0, _putpos := 0, _dump := false,
    _buf := none, _error := ⟨true, false, 0⟩ }

/-- The bytes of the backing storage (`[]` for a NULL pointer: reads
through NULL are undefined behaviour in the source). -/
def streambuf.storageBytes (b : streambuf) : List Nat := b._buf.getD []

/-- `streambuf::in_avail()`: `_putpos - _getpos`. -/
def streambuf.in_avail (b : streambuf) : Nat := b._putpos - b._getpos

/-- `streambuf::size()`: `_putpos`. -/
def streambuf.bufSize (b : streambuf) : Nat := b._putpos

/-- `memcpy(storage + pos, data, data.length)` on list-modelled storage
(in-bounds whenever `pos + data.length ≤ storage.length`, which the
cursor invariant guarantees at every call site below). -/
def writeBytes (storage : List Nat) (pos : Nat) (data : List Nat) : List Nat :=
  storage.take pos ++ data ++ storage.drop (pos + data.length)

/-- `streambuf::sgetc(char* c)`: returns the new state and the byte
count transferred (the byte itself, `storage[_getpos]`, is copied to
`*c`; no claim inspects it).  On a non-empty queue the read cursor
advances and `_dump` is set iff the queue became empty. -/
def streambuf.sgetc (b : streambuf) : streambuf × Nat :=
  if b._putpos - b._getpos = 0 then (b, 0)
  else
    let g := b._getpos + 1
    ({ b with _getpos := g, _dump := g == b._putpos }, 1)

/-- `streambuf::sgetn(char* s, size_t len)`: returns the new state, the
count `n = min(_putpos - _getpos, len)`, and the bytes copied to `s`. -/
def streambuf.sgetn (b : streambuf) (len : Nat) : streambuf × Nat × List Nat :=
  let n := min (b._putpos - b._getpos) len
  let data := (b.storageBytes.drop b._getpos).take n
  let g := b._getpos + n
  ({ b with _getpos := g, _dump := g == b._putpos }, n, data)

/-- The `// check for dump` block at the top of `streambuf::sputc` and
`streambuf::sputn`: if `_dump` is set, rewind both cursors to zero and
clear the flag. -/
def streambuf.rewindIfDump (b : streambuf) : streambuf :=
  if b._dump then { b with _putpos := 0, _getpos := 0, _dump := false } else b

/-- `streambuf::sputc(char c)`: performs the pending lazy rewind if
`_dump` is set, then appends `c` if capacity remains, returning the new
state and the count transferred (1 or 0). -/
def streambuf.sputc (b : streambuf) (c : Nat) : streambuf × Nat :=
  let b2 := b.rewindIfDump
  if b2._capacity - b2._putpos = 0 then (b2, 0)
  else
    ({ b2 with _buf := b2._buf.map (fun st => st.set b2._putpos c),
               _putpos := b2._putpos + 1 }, 1)

/-- `streambuf::sputn(const char* s, size_t len)`: performs the pending
lazy rewind if `_dump` is set, then copies
`n = min(_capacity - _putpos, len)` bytes of `data` (which models the
`len` bytes starting at `s`) and advances the write cursor by `n`. -/
def streambuf.sputn (b : streambuf) (data : List Nat) : streambuf × Nat :=
  let b2 := b.rewindIfDump
  let n := min (b2._capacity - b2._putpos) data.length
  ({ b2 with _buf := b2._buf.map (fun st => writeBytes st b2._putpos (data.take n)),
             _putpos := b2._putpos + n }, n)

/-- `streambuf::purge()`: hard reset — both cursors to zero, error
register cleared and then `uninitialized` re-asserted iff `_buf` is
NULL; returns the prior `_putpos - _getpos`.  (`_dump` is not touched.) -/
def streambuf.purge (b : streambuf) : streambuf × Nat :=
  let n := b._putpos - b._getpos
  ({ b with _getpos := 0, _putpos := 0,
            _error := { b._error.clearFlags with uninitialized := b._buf.isNone } }, n)

/-- `streambuf::setbuf(char* buf, size_t capacity)`: binds the storage,
zeroes both cursors, clears `_dump`, and assigns
`_error._flags.uninitialized = (_buf == NULL)`.  The other error bits
are not written. -/
def streambuf.setbuf (b : streambuf) (buf : Option (List Nat)) (capacity : Nat) : streambuf :=
  { b with _buf := buf, _capacity := capacity, _getpos := 0, _putpos := 0,
           _dump := false,
           _error := { b._error with uninitialized := buf.isNone } }

/-- `streambuf::dump()`: marks the buffer for the lazy rewind and
returns `_buf` (the pointer itself is not modelled). -/
def streambuf.dump (b : streambuf) : streambuf := { b with _dump := true }

/-- One public `streambuf` operation, for stating reachability. -/
inductive Op where
  | getOne
  | getMany (len : Nat)
  | putOne (c : Nat)
  | putMany (data : List Nat)
  | purgeOp
  | bindOp (storage : Option (List Nat)) (capacity : Nat)
  | dumpOp
deriving Repr

/-- The state transformer of one public operation (return values
discarded). -/
def streambuf.step (b : streambuf) : Op → streambuf
  | .getOne => (b.sgetc).1
  | .getMany len => (b.sgetn len).1
  | .putOne c => (b.sputc c).1
  | .putMany data => (b.sputn data).1
  | .purgeOp => (b.purge).1
  | .bindOp st c => b.setbuf st c
  | .dumpOp => b.dump

/-- Run a sequence of public operations. -/
def streambuf.runOps (b : streambuf) : List Op → streambuf
  | [] => b
  | op :: ops => (b.step op).runOps ops

/-- The cursor-ordering invariant `0 ≤ _getpos ≤ _putpos ≤ _capacity`. -/
def streambuf.cursorInv (b : streambuf) : Prop :=
  0 ≤ b._getpos ∧ b._getpos ≤ b._putpos ∧ b._putpos ≤ b._capacity

instance (b : streambuf) : Decidable b.cursorInv := by
  unfold streambuf.cursorInv; infer_instance

/-- The `ostream` wrapper of src/uio.hpp: its buffer `_obuf` and its own
error register `_oerror`. -/
structure ostream where
  _obuf : streambuf
  _oerror : streamerr
deriving DecidableEq, Repr

/-- `ostream::write(const char* s, size_t n)`: forwards to
`_obuf.sputn`; if the count transferred differs from `n` it sets
`_oerror._flags.overflow` and ORs the buffer's error register into
`_oerror`. -/
def ostream.write (os : ostream) (data : List Nat) : ostream :=
  let r := os._obuf.sputn data
  if data.length = r.2 then { os with _obuf := r.1 }
  else
    { _obuf := r.1,
      _oerror := ({ os._oerror with overflow := true }).merge r.1._error }

/-- `ostream::put(char c)`: forwards to `_obuf.sputc`; on a zero count
sets `overflow` and merges the buffer's error register. -/
def ostream.put (os : ostream) (c : Nat) : ostream :=
  let r := os._obuf.sputc c
  if r.2 ≠ 0 then { os with _obuf := r.1 }
  else
    { _obuf := r.1,
      _oerror := ({ os._oerror with overflow := true }).merge r.1._error }

/-- The `istream` wrapper: its buffer `_ibuf` and its own error register
`_ierror`. -/
structure istream where
  _ibuf : streambuf
  _ierror : streamerr
deriving DecidableEq, Repr

/-- `istream::operator>>(char* s)` as written in the variant translation
unit src/unnamed/part_000 (the defensively-checked form): reads
`n = in_avail()` bytes with `sgetn`; if the transferred count differs
from `n` it sets `_ierror._flags.overflow` and merges `_ibuf._error`;
finally stores a terminator at `s[n]`.  The returned list is the
destination contents `s[0..n]`: the `n` transferred bytes followed by
the terminator byte `0` (the transferred count always equals `n`, proved
below, so the bytes are contiguous). -/
def istream.extract (ist : istream) : istream × List Nat :=
  let n := ist._ibuf.in_avail
  let r := ist._ibuf.sgetn n
  let ierr := if n = r.2.1 then ist._ierror
              else ({ ist._ierror with overflow := true }).merge r.1._error
  ({ _ibuf := r.1, _ierror := ierr }, r.2.2 ++ [0])


/-- The dump-rewind block leaves capacity, storage and errors alone. -/
theorem streambuf.rewindIfDump_frame (b : streambuf) :
    b.rewindIfDump._capacity = b._capacity ∧ b.rewindIfDump._buf = b._buf ∧
    b.rewindIfDump._error = b._error := by
  unfold streambuf.rewindIfDump
  split <;> exact ⟨rfl, rfl, rfl⟩

/-- The dump-rewind block preserves the cursor-ordering invariant. -/
theorem streambuf.rewindIfDump_cursorInv (b : streambuf) (h : b.cursorInv) :
    b.rewindIfDump.cursorInv := by
  unfold streambuf.rewindIfDump
  split
  · exact ⟨Nat.le_refl 0, Nat.le_refl 0, Nat.zero_le _⟩
  · exact h

/-- Every public operation preserves the cursor-ordering invariant. -/
theorem streambuf.step_cursorInv (b : streambuf) (op : Op) (h : b.cursorInv) :
    (b.step op).cursorInv := by
  obtain ⟨-, h1, h2⟩ := h
  cases op with
  | getOne =>
      show ((b.sgetc).1).cursorInv
      unfold streambuf.sgetc
      split
      · exact ⟨Nat.zero_le _, h1, h2⟩
      · next hne =>
          refine ⟨Nat.zero_le _, ?_, h2⟩
          show b._getpos + 1 ≤ b._putpos
          omega
  | getMany len =>
      show ((b.sgetn len).1).cursorInv
      refine ⟨Nat.zero_le _, ?_, h2⟩
      show b._getpos + min (b._putpos - b._getpos) len ≤ b._putpos
      have := Nat.min_le_left (b._putpos - b._getpos) len
      omega
  | putOne c =>
      show ((b.sputc c).1).cursorInv
      obtain ⟨g1, g2, g3⟩ := b.rewindIfDump_cursorInv ⟨Nat.zero_le _, h1, h2⟩
      unfold streambuf.sputc
      dsimp only
      split
      · exact ⟨g1, g2, g3⟩
      · next hne =>
          refine ⟨Nat.zero_le _, ?_, ?_⟩
          · show b.rewindIfDump._getpos ≤ b.rewindIfDump._putpos + 1
            omega
          · show b.rewindIfDump._putpos + 1 ≤ b.rewindIfDump._capacity
            omega
  | putMany data =>
      show ((b.sputn data).1).cursorInv
      obtain ⟨g1, g2, g3⟩ := b.rewindIfDump_cursorInv ⟨Nat.zero_le _, h1, h2⟩
      have hmin :=
        Nat.min_le_left (b.rewindIfDump._capacity - b.rewindIfDump._putpos) data.length
      refine ⟨Nat.zero_le _, ?_, ?_⟩
      · show b.rewindIfDump._getpos ≤
          b.rewindIfDump._putpos +
            min (b.rewindIfDump._capacity - b.rewindIfDump._putpos) data.length
        omega
      · show b.rewindIfDump._putpos +
            min (b.rewindIfDump._capacity - b.rewindIfDump._putpos) data.length ≤
          b.rewindIfDump._capacity
        omega
  | purgeOp =>
      exact ⟨Nat.zero_le _, Nat.le_refl _, Nat.zero_le _⟩
  | bindOp st c =>
      exact ⟨Nat.zero_le _, Nat.le_refl _, Nat.zero_le _⟩
  | dumpOp =>
      exact ⟨Nat.zero_le _, h1, h2⟩

/-- The invariant is preserved along any operation sequence. -/
theorem streambuf.runOps_cursorInv (b : streambuf) (ops : List Op) (h : b.cursorInv) :
    (b.runOps ops).cursorInv := by
  induction ops generalizing b with
  | nil => exact h
  | cons op ops ih => exact ih _ (b.step_cursorInv op h)

/-- Claim C3: for every buffer state reachable from a freshly
constructed buffer (and hence, taking `Op.bindOp` as the first
operation, from any freshly bound buffer) through any sequence of the
public operations `sgetc`, `sgetn`, `sputc`, `sputn`, `purge`, `setbuf`
and `dump`, the cursors satisfy
`0 ≤ _getpos ≤ _putpos ≤ _capacity`. -/
theorem cursor_order_invariant_reachable (ops : List Op) :
    (streambuf.init.runOps ops).cursorInv :=
  streambuf.runOps_cursorInv _ ops ⟨Nat.le_refl 0, Nat.le_refl 0, Nat.le_refl 0⟩

/-- Claim C1: binding fresh storage of capacity `c` and writing a byte
sequence `S` with `|S| ≤ c` via `sputn` transfers all of `S`, and a
subsequent `sgetn` of `|S|` bytes returns exactly `S` in order. -/
theorem roundtrip_write_read (c : Nat) (storage S : List Nat)
    (_hst : storage.length = c) (hS : S.length ≤ c) :
    ((streambuf.init.setbuf (some storage) c).sputn S).2 = S.length ∧
    ((((streambuf.init.setbuf (some storage) c).sputn S).1).sgetn S.length).2.2 = S := by
  constructor
  · simp [streambuf.setbuf, streambuf.init, streambuf.sputn, streambuf.rewindIfDump,
          Nat.min_eq_right hS]
  · simp [streambuf.setbuf, streambuf.init, streambuf.sputn, streambuf.sgetn,
          streambuf.rewindIfDump, streambuf.storageBytes, writeBytes,
          Nat.min_eq_right hS, List.take_left]

/-- Witness for C1 at capacity 3, storage `[0,0,0]`, sequence `[7,8]`. -/
theorem roundtrip_write_read_witness :
    ((([0,0,0] : List Nat).length = 3) ∧ (([7,8] : List Nat).length ≤ 3)) ∧
    (((streambuf.init.setbuf (some [0,0,0]) 3).sputn [7,8]).2 = ([7,8] : List Nat).length ∧
     ((((streambuf.init.setbuf (some [0,0,0]) 3).sputn [7,8]).1).sgetn
        ([7,8] : List Nat).length).2.2 = [7,8]) :=
  ⟨⟨by decide, by decide⟩, roundtrip_write_read 3 [0,0,0] [7,8] (by decide) (by decide)⟩

/-- Claim C2: draining a bound buffer with `sgetn` (`len ≥ in_avail`)
does not rewind the cursors at drain time — both cursors end at the old
write cursor and only the dump flag is set — and the rewind happens at
the start of the next `sputn`, which can then transfer up to the full
capacity: for any `data` with `|data| ≤ capacity` it returns `|data|`,
with the cursors rewound to the front of the storage. -/
theorem lazy_rewind_after_drain (b : streambuf) (st : List Nat) (len : Nat)
    (data : List Nat) (_hbuf : b._buf = some st) (h1 : b._getpos ≤ b._putpos)
    (hlen : b.in_avail ≤ len) (hdata : data.length ≤ b._capacity) :
    ((b.sgetn len).1)._getpos = b._putpos ∧
    ((b.sgetn len).1)._putpos = b._putpos ∧
    ((b.sgetn len).1)._dump = true ∧
    (((b.sgetn len).1).sputn data).2 = data.length ∧
    ((((b.sgetn len).1).sputn data).1)._getpos = 0 ∧
    ((((b.sgetn len).1).sputn data).1)._putpos = data.length := by
  have hlen2 : b._putpos - b._getpos ≤ len := hlen
  have hg : b._getpos + min (b._putpos - b._getpos) len = b._putpos := by
    rw [Nat.min_eq_left hlen2]
    omega
  have hdump : ((b.sgetn len).1)._dump = true := by
    show (b._getpos + min (b._putpos - b._getpos) len == b._putpos) = true
    rw [hg]
    simp
  have hrw : ((b.sgetn len).1).rewindIfDump
      = { (b.sgetn len).1 with _putpos := 0, _getpos := 0, _dump := false } := by
    unfold streambuf.rewindIfDump
    rw [hdump]
    rfl
  refine ⟨hg, rfl, hdump, ?_, ?_, ?_⟩
  · show min ((((b.sgetn len).1).rewindIfDump)._capacity -
        (((b.sgetn len).1).rewindIfDump)._putpos) data.length = data.length
    rw [hrw]
    show min (b._capacity - 0) data.length = data.length
    rw [Nat.sub_zero]
    exact Nat.min_eq_right hdata
  · show (((b.sgetn len).1).rewindIfDump)._getpos = 0
    rw [hrw]
  · show (((b.sgetn len).1).rewindIfDump)._putpos +
        min ((((b.sgetn len).1).rewindIfDump)._capacity -
          (((b.sgetn len).1).rewindIfDump)._putpos) data.length = data.length
    rw [hrw]
    show 0 + min (b._capacity - 0) data.length = data.length
    rw [Nat.zero_add, Nat.sub_zero]
    exact Nat.min_eq_right hdata

/-- Witness for C2: capacity 2, `[5,6]` written, drained by `sgetn 2`,
then `[7,8]` written. -/
theorem lazy_rewind_after_drain_witness :
    (((((streambuf.init.setbuf (some [0,0]) 2).sputn [5,6]).1)._buf = some [5,6]) ∧
     ((((streambuf.init.setbuf (some [0,0]) 2).sputn [5,6]).1)._getpos ≤
       (((streambuf.init.setbuf (some [0,0]) 2).sputn [5,6]).1)._putpos) ∧
     ((((streambuf.init.setbuf (some [0,0]) 2).sputn [5,6]).1).in_avail ≤ 2) ∧
     (([7,8] : List Nat).length ≤
       (((streambuf.init.setbuf (some [0,0]) 2).sputn [5,6]).1)._capacity)) ∧
    (((((((streambuf.init.setbuf (some [0,0]) 2).sputn [5,6]).1).sgetn 2).1)._getpos =
        (((streambuf.init.setbuf (some [0,0]) 2).sputn [5,6]).1)._putpos) ∧
     ((((((streambuf.init.setbuf (some [0,0]) 2).sputn [5,6]).1).sgetn 2).1)._putpos =
        (((streambuf.init.setbuf (some [0,0]) 2).sputn [5,6]).1)._putpos) ∧
     ((((((streambuf.init.setbuf (some [0,0]) 2).sputn [5,6]).1).sgetn 2).1)._dump = true) ∧
     ((((((streambuf.init.setbuf (some [0,0]) 2).sputn [5,6]).1).sgetn 2).1).sputn
        [7,8]).2 = ([7,8] : List Nat).length ∧
     ((((((((streambuf.init.setbuf (some [0,0]) 2).sputn [5,6]).1).sgetn 2).1).sputn
        [7,8]).1)._getpos = 0) ∧
     ((((((((streambuf.init.setbuf (some [0,0]) 2).sputn [5,6]).1).sgetn 2).1).sputn
        [7,8]).1)._putpos = ([7,8] : List Nat).length)) :=
  ⟨⟨by decide, by decide, by decide, by decide⟩,
   lazy_rewind_after_drain _ [5,6] 2 [7,8] (by decide) (by decide) (by decide) (by decide)⟩

/-- Claim C4 (amended): `setbuf` zeroes both cursors, resets the
pending-rewind flag, installs the storage and capacity, and assigns
`uninitialized = (storage == null)`; the other error flags (`overflow`
and the reserved application bits) are left unchanged, not cleared. -/
theorem setbuf_cursors_and_flags (b : streambuf) (buf : Option (List Nat)) (c : Nat) :
    (b.setbuf buf c)._getpos = 0 ∧ (b.setbuf buf c)._putpos = 0 ∧
    (b.setbuf buf c)._capacity = c ∧ (b.setbuf buf c)._buf = buf ∧
    (b.setbuf buf c)._dump = false ∧
    (b.setbuf buf c)._error.uninitialized = buf.isNone ∧
    (b.setbuf buf c)._error.overflow = b._error.overflow ∧
    (b.setbuf buf c)._error.reserved = b._error.reserved :=
  ⟨rfl, rfl, rfl, rfl, rfl, rfl, rfl, rfl⟩

/-- Counterexample to claim C4 as stated: a buffer whose error register
has `overflow` set keeps it set across `setbuf` with non-null storage —
`streambuf::setbuf` only assigns the `uninitialized` bit and does not
clear the other flags. -/
theorem setbuf_keeps_overflow_cex :
    (({ _capacity := 0, _getpos := 0, _putpos := 0, _dump := false, _buf := none,
         _error := { uninitialized := true, overflow := true, reserved := 0 } } :
        streambuf).setbuf (some [0]) 1)._error.overflow = true := rfl

/-- Claim C6: `purge` zeroes both cursors, clears the error register
except re-asserting `uninitialized` iff the storage is null, and returns
the read-available count `_putpos - _getpos` that held before the call
(the final conjunct pins the truncated subtraction to the exact prior
difference under the cursor invariant). -/
theorem purge_hard_reset (b : streambuf) (h : b._getpos ≤ b._putpos) :
    ((b.purge).1)._getpos = 0 ∧ ((b.purge).1)._putpos = 0 ∧
    ((b.purge).1)._error.uninitialized = b._buf.isNone ∧
    ((b.purge).1)._error.overflow = false ∧
    ((b.purge).1)._error.reserved = 0 ∧
    (b.purge).2 = b._putpos - b._getpos ∧
    (b.purge).2 + b._getpos = b._putpos := by
  refine ⟨rfl, rfl, rfl, rfl, rfl, rfl, ?_⟩
  show b._putpos - b._getpos + b._getpos = b._putpos
  omega

/-- Witness for C6: capacity 3, `[1,2]` written, one byte read, then
purged: the prior available count 1 is returned and the state resets. -/
theorem purge_hard_reset_witness :
    ((((((streambuf.init.setbuf (some [0,0,0]) 3).sputn [1,2]).1).sgetc).1)._getpos ≤
      (((((streambuf.init.setbuf (some [0,0,0]) 3).sputn [1,2]).1).sgetc).1)._putpos) ∧
    ((((((((streambuf.init.setbuf (some [0,0,0]) 3).sputn [1,2]).1).sgetc).1).purge).1)._getpos = 0 ∧
     (((((((streambuf.init.setbuf (some [0,0,0]) 3).sputn [1,2]).1).sgetc).1).purge).1)._putpos = 0 ∧
     (((((((streambuf.init.setbuf (some [0,0,0]) 3).sputn [1,2]).1).sgetc).1).purge).1)._error.uninitialized =
       ((((((streambuf.init.setbuf (some [0,0,0]) 3).sputn [1,2]).1).sgetc).1)._buf).isNone ∧
     (((((((streambuf.init.setbuf (some [0,0,0]) 3).sputn [1,2]).1).sgetc).1).purge).1)._error.overflow = false ∧
     (((((((streambuf.init.setbuf (some [0,0,0]) 3).sputn [1,2]).1).sgetc).1).purge).1)._error.reserved = 0 ∧
     ((((((streambuf.init.setbuf (some [0,0,0]) 3).sputn [1,2]).1).sgetc).1).purge).2 =
       (((((streambuf.init.setbuf (some [0,0,0]) 3).sputn [1,2]).1).sgetc).1)._putpos -
       (((((streambuf.init.setbuf (some [0,0,0]) 3).sputn [1,2]).1).sgetc).1)._getpos ∧
     ((((((streambuf.init.setbuf (some [0,0,0]) 3).sputn [1,2]).1).sgetc).1).purge).2 +
       (((((streambuf.init.setbuf (some [0,0,0]) 3).sputn [1,2]).1).sgetc).1)._getpos =
       (((((streambuf.init.setbuf (some [0,0,0]) 3).sputn [1,2]).1).sgetc).1)._putpos) :=
  ⟨by decide, purge_hard_reset _ (by decide)⟩

/-- Claim C10: in the drained-pending-rewind state (dump flag set), a
zero-length `sputn` still performs the lazy rewind: it returns 0 and
resets both cursors to zero, clearing the dump flag — so even a
zero-byte write discards the region exposed by `dump()`. -/
theorem zero_length_write_rewind (b : streambuf) (h : b._dump = true) :
    (b.sputn []).2 = 0 ∧ ((b.sputn []).1)._getpos = 0 ∧
    ((b.sputn []).1)._putpos = 0 ∧ ((b.sputn []).1)._dump = false := by
  have hrw : b.rewindIfDump = { b with _putpos := 0, _getpos := 0, _dump := false } := by
    unfold streambuf.rewindIfDump
    rw [h]
    rfl
  refine ⟨?_, ?_, ?_, ?_⟩
  · show min (b.rewindIfDump._capacity - b.rewindIfDump._putpos) (List.length []) = 0
    simp
  · show b.rewindIfDump._getpos = 0
    rw [hrw]
  · show b.rewindIfDump._putpos +
        min (b.rewindIfDump._capacity - b.rewindIfDump._putpos) (List.length []) = 0
    rw [hrw]
    simp
  · show b.rewindIfDump._dump = false
    rw [hrw]

/-- Witness for C10: capacity 1 buffer marked by `dump()`, then a
zero-length write. -/
theorem zero_length_write_rewind_witness :
    (((streambuf.init.setbuf (some [0]) 1).dump)._dump = true) ∧
    ((((streambuf.init.setbuf (some [0]) 1).dump).sputn []).2 = 0 ∧
     (((((streambuf.init.setbuf (some [0]) 1).dump).sputn []).1)._getpos = 0) ∧
     (((((streambuf.init.setbuf (some [0]) 1).dump).sputn []).1)._putpos = 0) ∧
     (((((streambuf.init.setbuf (some [0]) 1).dump).sputn []).1)._dump = false)) :=
  ⟨by decide, zero_length_write_rewind _ (by decide)⟩


/-- Counterexample to claim C5 as stated: the read/write paths of
src/uio.hpp perform no null-storage check, so `sputc` on a buffer bound
to NULL storage with declared capacity 1 returns 1 rather than 0 (the
store itself goes through the null pointer, undefined behaviour the
source does not guard against). -/
theorem unbound_write_returns_one_cex :
    ((streambuf.init.setbuf none 1).sputc 65).2 = 1 := by decide

/-- Claim C5 (amended): for an unbound buffer whose declared capacity is
zero — the state produced by default construction, in which every size
check of src/uio.hpp fails — `sgetc`, `sgetn`, `sputc` and `sputn` all
return 0 transferred bytes and leave the `uninitialized` flag (set at
construction or bind) set; binding non-null storage via `setbuf` clears
the flag.  The operations themselves never write the flag in src/uio.hpp
(that behaviour exists only in the part_001 variant), and an unbound
write with positive declared capacity returns 1 (see the
counterexample). -/
theorem unbound_buffer_ops (b : streambuf) (len c cap : Nat) (data st : List Nat)
    (_hbuf : b._buf = none) (hcap : b._capacity = 0)
    (h1 : b._getpos ≤ b._putpos) (h2 : b._putpos ≤ b._capacity)
    (herr : b._error.uninitialized = true) :
    (b.sgetc).2 = 0 ∧ ((b.sgetc).1)._error.uninitialized = true ∧
    (b.sgetn len).2.1 = 0 ∧ ((b.sgetn len).1)._error.uninitialized = true ∧
    (b.sputc c).2 = 0 ∧ ((b.sputc c).1)._error.uninitialized = true ∧
    (b.sputn data).2 = 0 ∧ ((b.sputn data).1)._error.uninitialized = true ∧
    (b.setbuf (some st) cap)._error.uninitialized = false := by
  have hpz : b._putpos = 0 := by omega
  have hgz : b._getpos = 0 := by omega
  obtain ⟨hfc, hfb, hfe⟩ := b.rewindIfDump_frame
  have hc0 : b.rewindIfDump._capacity - b.rewindIfDump._putpos = 0 := by
    rw [hfc, hcap]
    exact Nat.zero_sub _
  refine ⟨?_, ?_, ?_, ?_, ?_, ?_, ?_, ?_, rfl⟩
  · simp [streambuf.sgetc, hpz, hgz]
  · simp [streambuf.sgetc, hpz, hgz, herr]
  · show min (b._putpos - b._getpos) len = 0
    rw [hpz, hgz]
    simp
  · exact herr
  · simp [streambuf.sputc, hc0]
  · simp [streambuf.sputc, hc0, hfe, herr]
  · show min (b.rewindIfDump._capacity - b.rewindIfDump._putpos) data.length = 0
    rw [hc0]
    exact Nat.zero_min _
  · show (b.rewindIfDump)._error.uninitialized = true
    rw [hfe]
    exact herr

/-- Witness for C5 (amended) at the default-constructed buffer. -/
theorem unbound_buffer_ops_witness :
    ((streambuf.init._buf = none) ∧ (streambuf.init._capacity = 0) ∧
     (streambuf.init._getpos ≤ streambuf.init._putpos) ∧
     (streambuf.init._putpos ≤ streambuf.init._capacity) ∧
     (streambuf.init._error.uninitialized = true)) ∧
    ((streambuf.init.sgetc).2 = 0 ∧
     ((streambuf.init.sgetc).1)._error.uninitialized = true ∧
     (streambuf.init.sgetn 4).2.1 = 0 ∧
     ((streambuf.init.sgetn 4).1)._error.uninitialized = true ∧
     (streambuf.init.sputc 65).2 = 0 ∧
     ((streambuf.init.sputc 65).1)._error.uninitialized = true ∧
     (streambuf.init.sputn [9]).2 = 0 ∧
     ((streambuf.init.sputn [9]).1)._error.uninitialized = true ∧
     (streambuf.init.setbuf (some [0,0]) 2)._error.uninitialized = false) :=
  ⟨⟨by decide, by decide, by decide, by decide, by decide⟩,
   unbound_buffer_ops streambuf.init 4 65 2 [9] [0,0]
     (by decide) (by decide) (by decide) (by decide) (by decide)⟩

/-- Counterexample to claim C7 as stated: with a pending `dump()` view
(capacity 4, three bytes written, then `dump()`), a one-byte `sputn`
satisfies `len ≤ capacity - writeCursor`, returns 1 — but `in_avail`
goes from 3 to 1 instead of increasing by the transferred length. -/
theorem sputn_pending_dump_avail_cex :
    ((((((streambuf.init.setbuf (some [0,0,0,0]) 4).sputn [1,2,3]).1).dump).sputn [9]).2
       = 1) ∧
    (((((streambuf.init.setbuf (some [0,0,0,0]) 4).sputn [1,2,3]).1).dump).in_avail = 3) ∧
    ¬ ((((((((streambuf.init.setbuf (some [0,0,0,0]) 4).sputn [1,2,3]).1).dump).sputn
          [9]).1).in_avail) =
       ((((streambuf.init.setbuf (some [0,0,0,0]) 4).sputn [1,2,3]).1).dump).in_avail + 1) := by
  decide

/-- Claim C7 (amended): for every bound buffer state under the cursor
invariant with `len ≤ capacity - writeCursor`, `sputn` returns exactly
`len`; when no lazy rewind is pending (`_dump = false`) `in_avail`
increases by exactly `len`, and when a rewind is pending the rewind runs
first and `in_avail` afterwards equals `len`. -/
theorem sputn_in_bounds_count (b : streambuf) (st data : List Nat)
    (_hbuf : b._buf = some st) (h1 : b._getpos ≤ b._putpos)
    (_h2 : b._putpos ≤ b._capacity)
    (hlen : data.length ≤ b._capacity - b._putpos) :
    (b.sputn data).2 = data.length ∧
    (b._dump = false → ((b.sputn data).1).in_avail = b.in_avail + data.length) ∧
    (b._dump = true → ((b.sputn data).1).in_avail = data.length) := by
  cases hd : b._dump with
  | false =>
      have hrw : b.rewindIfDump = b := by
        unfold streambuf.rewindIfDump
        rw [hd]
        rfl
      refine ⟨?_, fun _ => ?_, fun hcontra => Bool.noConfusion hcontra⟩
      · show min (b.rewindIfDump._capacity - b.rewindIfDump._putpos) data.length
            = data.length
        rw [hrw]
        exact Nat.min_eq_right hlen
      · show b.rewindIfDump._putpos +
            min (b.rewindIfDump._capacity - b.rewindIfDump._putpos) data.length -
            b.rewindIfDump._getpos = b._putpos - b._getpos + data.length
        rw [hrw, Nat.min_eq_right hlen]
        omega
  | true =>
      have hdc : data.length ≤ b._capacity := by
        have := Nat.sub_le b._capacity b._putpos
        omega
      have hrw : b.rewindIfDump
          = { b with _putpos := 0, _getpos := 0, _dump := false } := by
        unfold streambuf.rewindIfDump
        rw [hd]
        rfl
      refine ⟨?_, fun hcontra => Bool.noConfusion hcontra, fun _ => ?_⟩
      · show min (b.rewindIfDump._capacity - b.rewindIfDump._putpos) data.length
            = data.length
        rw [hrw]
        show min (b._capacity - 0) data.length = data.length
        rw [Nat.sub_zero]
        exact Nat.min_eq_right hdc
      · show b.rewindIfDump._putpos +
            min (b.rewindIfDump._capacity - b.rewindIfDump._putpos) data.length -
            b.rewindIfDump._getpos = data.length
        rw [hrw]
        show 0 + min (b._capacity - 0) data.length - 0 = data.length
        rw [Nat.zero_add, Nat.sub_zero, Nat.sub_zero]
        exact Nat.min_eq_right hdc

/-- Witness for C7 (amended): capacity 3, one byte written, no rewind
pending, then a two-byte in-bounds write. -/
theorem sputn_in_bounds_count_witness :
    (((((streambuf.init.setbuf (some [0,0,0]) 3).sputn [1]).1)._buf = some [1,0,0]) ∧
     ((((streambuf.init.setbuf (some [0,0,0]) 3).sputn [1]).1)._getpos ≤
       (((streambuf.init.setbuf (some [0,0,0]) 3).sputn [1]).1)._putpos) ∧
     ((((streambuf.init.setbuf (some [0,0,0]) 3).sputn [1]).1)._putpos ≤
       (((streambuf.init.setbuf (some [0,0,0]) 3).sputn [1]).1)._capacity) ∧
     (([2,3] : List Nat).length ≤
       (((streambuf.init.setbuf (some [0,0,0]) 3).sputn [1]).1)._capacity -
       (((streambuf.init.setbuf (some [0,0,0]) 3).sputn [1]).1)._putpos)) ∧
    (((((streambuf.init.setbuf (some [0,0,0]) 3).sputn [1]).1).sputn [2,3]).2
        = ([2,3] : List Nat).length ∧
     ((((streambuf.init.setbuf (some [0,0,0]) 3).sputn [1]).1)._dump = false →
       (((((streambuf.init.setbuf (some [0,0,0]) 3).sputn [1]).1).sputn [2,3]).1).in_avail
         = (((streambuf.init.setbuf (some [0,0,0]) 3).sputn [1]).1).in_avail +
           ([2,3] : List Nat).length) ∧
     ((((streambuf.init.setbuf (some [0,0,0]) 3).sputn [1]).1)._dump = true →
       (((((streambuf.init.setbuf (some [0,0,0]) 3).sputn [1]).1).sputn [2,3]).1).in_avail
         = ([2,3] : List Nat).length)) :=
  ⟨⟨by decide, by decide, by decide, by decide⟩,
   sputn_in_bounds_count _ [1,0,0] [2,3] (by decide) (by decide) (by decide) (by decide)⟩

/-- Helper: whenever `ostream::write` sees a transferred count different
from the requested one, it reports overflow in the stream register. -/
theorem ostream.write_overflow_of_short (os : ostream) (data : List Nat)
    (h : data.length ≠ (os._obuf.sputn data).2) :
    (os.write data)._oerror.overflow = true := by
  simp only [ostream.write]
  rw [if_neg h]
  simp [streamerr.merge]

/-- Claim C8: an output stream owning a freshly bound buffer of capacity
`c`, asked to write `c + 1` bytes, forwards to `sputn`, which transfers
and returns exactly `c` bytes (the write cursor ends at `c`), and the
stream's own error register afterwards reports `overflow = true`. -/
theorem ostream_write_overflow (c : Nat) (storage data : List Nat)
    (_hst : storage.length = c) (hdata : data.length = c + 1) :
    ((streambuf.init.setbuf (some storage) c).sputn data).2 = c ∧
    (((streambuf.init.setbuf (some storage) c).sputn data).1)._putpos = c ∧
    (({ _obuf := streambuf.init.setbuf (some storage) c, _oerror := streamerr.mk0 } :
        ostream).write data)._oerror.overflow = true := by
  have hmin : min (c - 0) data.length = c := by
    rw [Nat.sub_zero, hdata]
    exact Nat.min_eq_left (Nat.le_succ c)
  have hcount : ((streambuf.init.setbuf (some storage) c).sputn data).2 = c := hmin
  refine ⟨hcount, ?_, ?_⟩
  · show 0 + min (c - 0) data.length = c
    rw [Nat.zero_add]
    exact hmin
  · apply ostream.write_overflow_of_short
    show data.length ≠ ((streambuf.init.setbuf (some storage) c).sputn data).2
    rw [hcount, hdata]
    exact Nat.succ_ne_self c

/-- Witness for C8 at capacity 2, storage `[0,0]`, three bytes `[1,2,3]`. -/
theorem ostream_write_overflow_witness :
    ((([0,0] : List Nat).length = 2) ∧ (([1,2,3] : List Nat).length = 2 + 1)) ∧
    (((streambuf.init.setbuf (some [0,0]) 2).sputn [1,2,3]).2 = 2 ∧
     (((streambuf.init.setbuf (some [0,0]) 2).sputn [1,2,3]).1)._putpos = 2 ∧
     (({ _obuf := streambuf.init.setbuf (some [0,0]) 2, _oerror := streamerr.mk0 } :
         ostream).write [1,2,3])._oerror.overflow = true) :=
  ⟨⟨by decide, by decide⟩,
   ostream_write_overflow 2 [0,0] [1,2,3] (by decide) (by decide)⟩


/-- Claim C9: `istream::operator>>` copies `in_avail()` bytes of the
buffer into the destination and appends a terminator byte after them;
the transferred count of the underlying `sgetn` always equals the
requested `in_avail()` (third conjunct), so the defensive
shorter-transfer branch — which sets the stream's `overflow` flag and
merges the buffer's error register, and is written out in the part_000
variant — never fires: the stream's error register is unchanged and the
buffer is left drained. -/
theorem istream_extract_line (ist : istream) (st : List Nat)
    (hbuf : ist._ibuf._buf = some st) (h1 : ist._ibuf._getpos ≤ ist._ibuf._putpos)
    (hwf : ist._ibuf._putpos ≤ st.length) :
    (ist.extract).2 = (st.drop ist._ibuf._getpos).take ist._ibuf.in_avail ++ [0] ∧
    (ist.extract).2.length = ist._ibuf.in_avail + 1 ∧
    (ist._ibuf.sgetn ist._ibuf.in_avail).2.1 = ist._ibuf.in_avail ∧
    ((ist.extract).1)._ierror = ist._ierror ∧
    ((ist.extract).1)._ibuf.in_avail = 0 := by
  have hsb : ist._ibuf.storageBytes = st := by
    unfold streambuf.storageBytes
    rw [hbuf]
    rfl
  have hcount : (ist._ibuf.sgetn ist._ibuf.in_avail).2.1 = ist._ibuf.in_avail := by
    show min (ist._ibuf._putpos - ist._ibuf._getpos) ist._ibuf.in_avail
        = ist._ibuf.in_avail
    exact Nat.min_self _
  have hc1 : (ist.extract).2
      = (st.drop ist._ibuf._getpos).take ist._ibuf.in_avail ++ [0] := by
    show (ist._ibuf.storageBytes.drop ist._ibuf._getpos).take
        (min ist._ibuf.in_avail ist._ibuf.in_avail) ++ [0]
      = (st.drop ist._ibuf._getpos).take ist._ibuf.in_avail ++ [0]
    rw [hsb, Nat.min_self]
  refine ⟨hc1, ?_, hcount, ?_, ?_⟩
  · rw [hc1]
    simp only [List.length_append, List.length_take, List.length_drop,
      List.length_singleton, streambuf.in_avail]
    omega
  · simp [istream.extract, hcount]
  · show ist._ibuf._putpos -
        (ist._ibuf._getpos + min ist._ibuf.in_avail ist._ibuf.in_avail) = 0
    rw [Nat.min_self]
    show ist._ibuf._putpos -
        (ist._ibuf._getpos + (ist._ibuf._putpos - ist._ibuf._getpos)) = 0
    omega

/-- Witness for C9: buffer of capacity 3 holding `[4,5]`, extraction
yields `[4,5]` plus the terminator and leaves the stream error
untouched. -/
theorem istream_extract_line_witness :
    ((({ _ibuf := ((streambuf.init.setbuf (some [0,0,0]) 3).sputn [4,5]).1,
         _ierror := streamerr.mk0 } : istream)._ibuf._buf = some [4,5,0]) ∧
     (({ _ibuf := ((streambuf.init.setbuf (some [0,0,0]) 3).sputn [4,5]).1,
         _ierror := streamerr.mk0 } : istream)._ibuf._getpos ≤
      ({ _ibuf := ((streambuf.init.setbuf (some [0,0,0]) 3).sputn [4,5]).1,
         _ierror := streamerr.mk0 } : istream)._ibuf._putpos) ∧
     (({ _ibuf := ((streambuf.init.setbuf (some [0,0,0]) 3).sputn [4,5]).1,
         _ierror := streamerr.mk0 } : istream)._ibuf._putpos ≤
      ([4,5,0] : List Nat).length)) ∧
    ((({ _ibuf := ((streambuf.init.setbuf (some [0,0,0]) 3).sputn [4,5]).1,
         _ierror := streamerr.mk0 } : istream).extract).2 =
       (([4,5,0] : List Nat).drop
         ({ _ibuf := ((streambuf.init.setbuf (some [0,0,0]) 3).sputn [4,5]).1,
            _ierror := streamerr.mk0 } : istream)._ibuf._getpos).take
         ({ _ibuf := ((streambuf.init.setbuf (some [0,0,0]) 3).sputn [4,5]).1,
            _ierror := streamerr.mk0 } : istream)._ibuf.in_avail ++ [0] ∧
     (({ _ibuf := ((streambuf.init.setbuf (some [0,0,0]) 3).sputn [4,5]).1,
         _ierror := streamerr.mk0 } : istream).extract).2.length =
       ({ _ibuf := ((streambuf.init.setbuf (some [0,0,0]) 3).sputn [4,5]).1,
          _ierror := streamerr.mk0 } : istream)._ibuf.in_avail + 1 ∧
     (({ _ibuf := ((streambuf.init.setbuf (some [0,0,0]) 3).sputn [4,5]).1,
         _ierror := streamerr.mk0 } : istream)._ibuf.sgetn
        ({ _ibuf := ((streambuf.init.setbuf (some [0,0,0]) 3).sputn [4,5]).1,
           _ierror := streamerr.mk0 } : istream)._ibuf.in_avail).2.1 =
       ({ _ibuf := ((streambuf.init.setbuf (some [0,0,0]) 3).sputn [4,5]).1,
          _ierror := streamerr.mk0 } : istream)._ibuf.in_avail ∧
     ((({ _ibuf := ((streambuf.init.setbuf (some [0,0,0]) 3).sputn [4,5]).1,
          _ierror := streamerr.mk0 } : istream).extract).1)._ierror =
       ({ _ibuf := ((streambuf.init.setbuf (some [0,0,0]) 3).sputn [4,5]).1,
          _ierror := streamerr.mk0 } : istream)._ierror ∧
     ((({ _ibuf := ((streambuf.init.setbuf (some [0,0,0]) 3).sputn [4,5]).1,
          _ierror := streamerr.mk0 } : istream).extract).1)._ibuf.in_avail = 0) :=
  ⟨⟨by decide, by decide, by decide⟩,
   istream_extract_line
     { _ibuf := ((streambuf.init.setbuf (some [0,0,0]) 3).sputn [4,5]).1,
       _ierror := streamerr.mk0 } [4,5,0] (by decide) (by decide) (by decide)⟩

end uio
